import Mathlib

/-!
Shallow embedding of the GrokEval automation driver (grokautomation.py):
the element resolver, the response-stabilization engine, the conversation
lifecycle controller, the run orchestrator with resumable persistence, and
the process entry point. Theorems settle the frozen claims about them.
-/

namespace GrokEval

/-- Embedding of a Python lowercase conversion (str.lower) on the logical
character-list model of strings. -/
def lowerStr (s : String) : String :=
  ⟨s.data.map Char.toLower⟩

/-- Substring search over character lists, the model of the Python
membership test for strings (needle in haystack). -/
def subSearch (needle : List Char) : List Char → Bool
  | [] => needle.isEmpty
  | c :: rest => needle.isPrefixOf (c :: rest) || subSearch needle rest

/-- The Python test (needle in haystack) on strings. -/
def containsSub (needle hay : String) : Bool :=
  subSearch needle.data hay.data

/-- The Python test (needle in haystack.lower()). -/
def containsLower (needle hay : String) : Bool :=
  containsSub needle (lowerStr hay)

/-- Python slicing s[:n] on the logical string model. -/
def takeStr (s : String) (n : Nat) : String :=
  ⟨s.data.take n⟩

/-- Python str.strip: remove leading and trailing whitespace. -/
def stripStr (s : String) : String :=
  ⟨((s.data.dropWhile Char.isWhitespace).reverse.dropWhile Char.isWhitespace).reverse⟩

/-- A live page element as the browser driver exposes it: each accessor
(visibility probe, enabled probe, inner text) may raise, modelled with
Except. -/
instance {ε α : Type} [DecidableEq ε] [DecidableEq α] : DecidableEq (Except ε α) :=
  fun a b =>
  match a, b with
  | Except.error x, Except.error y =>
    if h : x = y then Decidable.isTrue (by rw [h])
    else Decidable.isFalse (fun hc => h (Except.error.inj hc))
  | Except.error _, Except.ok _ => Decidable.isFalse (fun hc => Except.noConfusion hc)
  | Except.ok _, Except.error _ => Decidable.isFalse (fun hc => Except.noConfusion hc)
  | Except.ok x, Except.ok y =>
    if h : x = y then Decidable.isTrue (by rw [h])
    else Decidable.isFalse (fun hc => h (Except.ok.inj hc))

structure UIElem where
  vis : Except String Bool
  enab : Except String Bool
  txt : Except String String

/-- Embedding of GrokAutomator.find_element: take the first match of the
selector query, return it if it is visible and enabled; any driver
exception (query failure or accessor failure) is caught and mapped to
none, as is a first match failing either check. -/
def find_element (q : Except String (List UIElem)) : Option UIElem :=
  match q with
  | Except.error _ => none
  | Except.ok [] => none
  | Except.ok (e :: _) =>
    match e.vis with
    | Except.error _ => none
    | Except.ok false => none
    | Except.ok true =>
      match e.enab with
      | Except.error _ => none
      | Except.ok false => none
      | Except.ok true => some e

/-- Inner loop of detect_ui_errors over the matched alert elements: the
first visible element whose stripped text is nonempty and does not
mention the product name is reported; an accessor exception aborts the
whole scan (mapped to none by the enclosing handler). -/
def detectLoop : List UIElem → Option String
  | [] => none
  | e :: rest =>
    match e.vis with
    | Except.error _ => none
    | Except.ok false => detectLoop rest
    | Except.ok true =>
      match e.txt with
      | Except.error _ => none
      | Except.ok t =>
        if stripStr t ≠ "" ∧ containsLower "grok" t = false then some (stripStr t)
        else detectLoop rest

/-- Embedding of GrokAutomator.detect_ui_errors: scan all error-selector
matches; exceptions anywhere yield none. -/
def detect_ui_errors (q : Except String (List UIElem)) : Option String :=
  match q with
  | Except.error _ => none
  | Except.ok l => detectLoop l

/-- Embedding of GrokAutomator.has_messages: count of response-selector
matches is positive; an exception yields false. -/
def has_messages (q : Except String Nat) : Bool :=
  match q with
  | Except.error _ => false
  | Except.ok n => decide (0 < n)

/-- Embedding of GrokAutomator.get_latest_response: the stripped inner
text of the last response-selector match; no matches, empty text, or any
exception yields the empty string. -/
def get_latest_response (q : Except String (List UIElem)) : String :=
  match q with
  | Except.error _ => ""
  | Except.ok l =>
    match l.getLast? with
    | none => ""
    | some e =>
      match e.txt with
      | Except.error _ => ""
      | Except.ok t => if t ≠ "" then stripStr t else ""

/-- The logical UI roles the automator addresses. -/
inductive Role
  | voiceButton
  | exitVoiceButton
  | textInput
  | responseContainer
  | newChatButton
  | errorBanner
deriving DecidableEq

/-- Selector constant VOICE_SELECTOR of GrokAutomator. -/
def VOICE_SELECTOR : String := "[aria-label*=\x27voice\x27]"

/-- Selector constant EXIT_VOICE_SELECTOR of GrokAutomator. -/
def EXIT_VOICE_SELECTOR : String := "[aria-label=\x27Exit voice mode\x27]"

/-- Selector constant TEXT_INPUT_SELECTOR of GrokAutomator. -/
def TEXT_INPUT_SELECTOR : String := "[contenteditable=\x27true\x27]"

/-- Selector constant RESPONSE_SELECTOR of GrokAutomator. -/
def RESPONSE_SELECTOR : String := "[class*=\x27message\x27]"

/-- Selector constant NEW_CHAT_SELECTOR of GrokAutomator. -/
def NEW_CHAT_SELECTOR : String := "a[href=\x27/\x27]"

/-- Selector constant ERROR_SELECTOR of GrokAutomator. -/
def ERROR_SELECTOR : String := "[role=\x27alert\x27]"

/-- The single selector the class associates with each role. -/
def selectorFor : Role → String
  | Role.voiceButton => VOICE_SELECTOR
  | Role.exitVoiceButton => EXIT_VOICE_SELECTOR
  | Role.textInput => TEXT_INPUT_SELECTOR
  | Role.responseContainer => RESPONSE_SELECTOR
  | Role.newChatButton => NEW_CHAT_SELECTOR
  | Role.errorBanner => ERROR_SELECTOR

/-- A page snapshot: the match list every selector query returns. -/
def PageModel := String → Except String (List UIElem)

/-- Resolving a role on a page: find_element applied to the query for the
role-selector, exactly as every call site of find_element does it. -/
def find_element_for_role (page : PageModel) (r : Role) : Option UIElem :=
  find_element (page (selectorFor r))

/-- Visibility-and-enabled check as the specification words it. -/
def passesChecks (requireEnabled : Bool) (e : UIElem) : Bool :=
  (match e.vis with | Except.ok true => true | _ => false) &&
  (!requireEnabled || (match e.enab with | Except.ok true => true | _ => false))

/-- The resolver algorithm as the specification words it (for comparison
with find_element): iterate the candidate pattern list in priority order;
within each pattern examine every match in document order; return the
first match passing the checks. -/
def resolveSpec (patterns : List (List UIElem)) (requireEnabled : Bool) : Option UIElem :=
  match patterns with
  | [] => none
  | ms :: rest =>
    match ms.find? (passesChecks requireEnabled) with
    | some e => some e
    | none => resolveSpec rest requireEnabled

/-- The stabilization-relevant configuration keys of config.json. -/
structure Config where
  minResponseLength : Nat
  requiredStableChecks : Nat
  maxResponseChars : Nat
  maxWaitTime : Nat
  checkInterval : Nat

/-- What one polling tick of wait_for_response observes on the page: the
detect_ui_errors outcome, the has_messages outcome, and the
get_latest_response snapshot. -/
structure Obs where
  errorBanner : Option String
  hasMessages : Bool
  snapshot : String

/-- The fixed rate-limit cooldown wait_for_response sleeps (seconds). -/
def rateLimitSleep : Nat := 30

/-- Outcome of one tick body: either a terminal return value or the
continuation state (time spent this tick, last text, stability counter,
response-started flag). -/
inductive TickOut
  | done (r : String)
  | cont (dt : Nat) (lastText : String) (stableCount : Nat) (started : Bool)

/-- The tick body of wait_for_response after the error-banner dispatch:
thread-loss check, snapshot qualification, character cap, and the
stability counter update. -/
def tickMain (cfg : Config) (o : Obs) (lastText : String) (stableCount : Nat)
    (started : Bool) : TickOut :=
  if !o.hasMessages && started then TickOut.done "Error: Lost thread view during response"
  else
    if o.snapshot ≠ "" ∧ cfg.minResponseLength < o.snapshot.length then
      if cfg.maxResponseChars ≤ o.snapshot.length then
        TickOut.done (takeStr o.snapshot cfg.maxResponseChars)
      else if o.snapshot = lastText then
        if cfg.requiredStableChecks ≤ stableCount + 1 then TickOut.done o.snapshot
        else TickOut.cont cfg.checkInterval lastText (stableCount + 1) true
      else TickOut.cont cfg.checkInterval o.snapshot 0 true
    else TickOut.cont cfg.checkInterval lastText stableCount started

/-- One full tick of wait_for_response: error-banner dispatch (rate-limit
cooldown or terminal error) followed by the main body. -/
def tickStep (cfg : Config) (o : Obs) (lastText : String) (stableCount : Nat)
    (started : Bool) : TickOut :=
  match o.errorBanner with
  | some m =>
    if (m ≠ "") && !(containsLower "grok" m) then
      if containsLower "rate limit" m || containsLower "too many" m then
        TickOut.cont rateLimitSleep lastText stableCount started
      else TickOut.done ("Error: " ++ m)
    else tickMain cfg o lastText stableCount started
  | none => tickMain cfg o lastText stableCount started

/-- The fallback value wait_for_response returns when the wait budget is
exhausted. -/
def timeoutResult (cfg : Config) (lastText : String) : String :=
  if lastText ≠ "" ∧ cfg.minResponseLength < lastText.length then
    if cfg.maxResponseChars < lastText.length then takeStr lastText cfg.maxResponseChars
    else lastText
  else "Error: No response received"

/-- The polling loop of wait_for_response over a finite trace of tick
observations, with the elapsed clock made explicit: the loop guard is
checked before each tick, a rate-limited tick advances the clock by the
fixed cooldown, every other continuing tick by the poll interval.
Returns none when the observation trace is exhausted while the loop would
keep polling. -/
def wait_for_response_loop (cfg : Config) :
    List Obs → Nat → String → Nat → Bool → Option String
  | [], t, lastText, _, _ =>
    if cfg.maxWaitTime ≤ t then some (timeoutResult cfg lastText) else none
  | o :: rest, t, lastText, stableCount, started =>
    if cfg.maxWaitTime ≤ t then some (timeoutResult cfg lastText)
    else
      match tickStep cfg o lastText stableCount started with
      | TickOut.done r => some r
      | TickOut.cont dt l s b => wait_for_response_loop cfg rest (t + dt) l s b

/-- Embedding of GrokAutomator.wait_for_response: run the polling loop
from the initial state (empty last text, zero stability counter, response
not started, clock at zero). -/
def wait_for_response (cfg : Config) (trace : List Obs) : Option String :=
  wait_for_response_loop cfg trace 0 "" 0 false

/-- Follows the claim wording under test (not the source): the same tick
dispatch except that the rate-limit cooldown costs no budget time. -/
def tickStepUncounted (cfg : Config) (o : Obs) (lastText : String) (stableCount : Nat)
    (started : Bool) : TickOut :=
  match o.errorBanner with
  | some m =>
    if (m ≠ "") && !(containsLower "grok" m) then
      if containsLower "rate limit" m || containsLower "too many" m then
        TickOut.cont 0 lastText stableCount started
      else TickOut.done ("Error: " ++ m)
    else tickMain cfg o lastText stableCount started
  | none => tickMain cfg o lastText stableCount started

/-- Follows the claim wording under test (not the source): the polling
loop in which rate-limit cooldown time is not counted against the
max-wait-time budget. -/
def wait_loop_uncounted (cfg : Config) :
    List Obs → Nat → String → Nat → Bool → Option String
  | [], t, lastText, _, _ =>
    if cfg.maxWaitTime ≤ t then some (timeoutResult cfg lastText) else none
  | o :: rest, t, lastText, stableCount, started =>
    if cfg.maxWaitTime ≤ t then some (timeoutResult cfg lastText)
    else
      match tickStepUncounted cfg o lastText stableCount started with
      | TickOut.done r => some r
      | TickOut.cont dt l s b => wait_loop_uncounted cfg rest (t + dt) l s b

/-- An input row of the prompts CSV: columns id and text. -/
structure PromptRecord where
  pid : Nat
  text : String
deriving DecidableEq

/-- An output row of the results CSV: id, prompt, grok_reply. -/
structure ResultRecord where
  rid : Nat
  prompt : String
  grok_reply : String
deriving DecidableEq

/-- A line of the results CSV file: the header line or a record row. -/
inductive CsvLine
  | header
  | record (r : ResultRecord)
deriving DecidableEq

/-- The id field of a record line. -/
def recordId : CsvLine → Option Nat
  | CsvLine.header => none
  | CsvLine.record r => some r.rid

/-- Embedding of GrokAutomator.load_existing_results: the id column of
the existing results file; a missing file yields the empty id set. -/
def load_existing_results (file : Option (List CsvLine)) : List Nat :=
  match file with
  | none => []
  | some lines => lines.filterMap recordId

/-- The per-result persistence step of run_automation: create the file
with a header line on first write, append the row without a header when
the file already exists. -/
def appendResult (file : Option (List CsvLine)) (r : ResultRecord) : List CsvLine :=
  match file with
  | none => [CsvLine.header, CsvLine.record r]
  | some lines => lines ++ [CsvLine.record r]

/-- Embedding of GrokAutomator.process_prompt at the record level: every
return path of the source yields a row whose id and prompt fields are the
input id and text; the reply text (success text or an Error string) is
abstracted as an oracle over the prompt. -/
def process_prompt (oracle : Nat → String → String) (p : PromptRecord) : ResultRecord :=
  ⟨p.pid, p.text, oracle p.pid p.text⟩

/-- The per-prompt loop of run_automation: process each pending prompt in
order and persist its row immediately, before the next prompt begins. -/
def run_automation_loop (oracle : Nat → String → String) :
    List PromptRecord → Option (List CsvLine) → Option (List CsvLine)
  | [], file => file
  | p :: rest, file =>
    run_automation_loop oracle rest (some (appendResult file (process_prompt oracle p)))

/-- Embedding of GrokAutomator.run_automation on the results sink: read
the completed id set once when resuming, drop the prompts whose id is in
it (the source filters only when the set is nonempty), and run the
persist loop over the pending prompts. -/
def run_automation (oracle : Nat → String → String) (prompts : List PromptRecord)
    (file : Option (List CsvLine)) (resume : Bool) : Option (List CsvLine) :=
  let completed := if resume then load_existing_results file else []
  let pending :=
    if completed.isEmpty then prompts
    else prompts.filter (fun p => !(completed.contains p.pid))
  run_automation_loop oracle pending file

/-- The run-level outcomes the entry point can observe: whether
config.json loads, whether the Chrome connection is established, and
whether the prompts CSV loads with valid columns. -/
structure MainEnv where
  configOk : Bool
  connectOk : Bool
  promptsOk : Bool

/-- Embedding of GrokAutomator.load_config as called by the constructor:
a missing or unreadable config.json re-raises out of the constructor. -/
def automatorInit (env : MainEnv) : Except String Unit :=
  if env.configOk then Except.ok () else Except.error "config.json not found"

/-- The boolean run_automation returns to main: false when the connection
cannot be established or when loading or validating the prompts source
fails (both caught internally), true otherwise. -/
def run_automation_ok (env : MainEnv) : Bool :=
  env.connectOk && env.promptsOk

/-- Embedding of main: construct the automator (config load may raise),
then run the automation, whose boolean outcome is only printed; every
failure inside run_automation is caught there. -/
def mainProcess (env : MainEnv) : Except String Bool :=
  match automatorInit env with
  | Except.error e => Except.error e
  | Except.ok _ => Except.ok (run_automation_ok env)

/-- The process exit status: zero unless an exception escapes main. -/
def exitCode (env : MainEnv) : Nat :=
  match mainProcess env with
  | Except.error _ => 1
  | Except.ok _ => 0

/-- The page interactions start_new_conversation can issue. -/
inductive PageAction
  | clickNewChat
  | navigateRoot
  | reloadPage
deriving DecidableEq

/-- Environment of one start_new_conversation call: the retry budget, the
initial conversation-empty check, and per-attempt outcomes of the button
resolve, the click, the post-click state and URL, and the fallback
navigation. -/
structure ConvEnv where
  maxRetries : Nat
  initialEmpty : Bool
  newChatFind : Nat → Option UIElem
  clickOk : Nat → Bool
  emptyAfterClick : Nat → Bool
  urlAfterClick : Nat → String
  navOk : Nat → Bool
  emptyAfterNav : Nat → Bool

/-- The direct-navigation fallback of start_new_conversation: up to two
goto attempts to the site root, succeeding when the page is then in the
new-conversation state; otherwise the function gives up and returns
false. Also records the page actions issued. -/
def sncNavLoop (env : ConvEnv) : Nat → Nat → List PageAction → Bool × List PageAction
  | 0, _, acts => (false, acts)
  | fuel + 1, j, acts =>
    if env.navOk j then
      if env.emptyAfterNav j then (true, acts ++ [PageAction.navigateRoot])
      else sncNavLoop env fuel (j + 1) (acts ++ [PageAction.navigateRoot])
    else sncNavLoop env fuel (j + 1) (acts ++ [PageAction.navigateRoot])

/-- The new-chat-button loop of start_new_conversation: up to maxRetries
attempts to resolve and click the button, succeeding when the state
becomes empty or the URL equals the site root; when the budget is spent
it falls through to the direct-navigation fallback. -/
def sncButtonLoop (env : ConvEnv) : Nat → Nat → List PageAction → Bool × List PageAction
  | 0, _, acts => sncNavLoop env 2 0 acts
  | fuel + 1, i, acts =>
    if (env.newChatFind i).isSome then
      if env.clickOk i then
        if env.emptyAfterClick i then (true, acts ++ [PageAction.clickNewChat])
        else if env.urlAfterClick i = "https://grok.com" ∨
            env.urlAfterClick i = "https://grok.com/" then
          (true, acts ++ [PageAction.clickNewChat])
        else sncButtonLoop env fuel (i + 1) (acts ++ [PageAction.clickNewChat])
      else sncButtonLoop env fuel (i + 1) (acts ++ [PageAction.clickNewChat])
    else sncButtonLoop env fuel (i + 1) acts

/-- Embedding of GrokAutomator.start_new_conversation, additionally
recording the page actions performed: no-op success when the state is
already empty, then the button loop, then the navigation fallback. -/
def start_new_conversation (env : ConvEnv) : Bool × List PageAction :=
  if env.initialEmpty then (true, []) else sncButtonLoop env env.maxRetries 0 []

/-- One button attempt failing, as the source observes it: button not
resolved, click raised, or the click neither emptied the state nor landed
on the site root. -/
def clickFailsAt (env : ConvEnv) (i : Nat) : Prop :=
  (env.newChatFind i).isNone = true ∨ env.clickOk i = false ∨
    (env.clickOk i = true ∧ env.emptyAfterClick i = false ∧
      env.urlAfterClick i ≠ "https://grok.com" ∧ env.urlAfterClick i ≠ "https://grok.com/")

/-- One button attempt succeeding: button resolved, click ran, and the
state emptied or the URL is the site root afterwards. -/
def clickSucceedsAt (env : ConvEnv) (i : Nat) : Prop :=
  (env.newChatFind i).isSome = true ∧ env.clickOk i = true ∧
    (env.emptyAfterClick i = true ∨ env.urlAfterClick i = "https://grok.com" ∨
      env.urlAfterClick i = "https://grok.com/")

/-- One navigation attempt failing: the goto raised or the state did not
become empty. -/
def navFailsAt (env : ConvEnv) (j : Nat) : Prop :=
  env.navOk j = false ∨ env.emptyAfterNav j = false

instance (env : ConvEnv) (i : Nat) : Decidable (clickFailsAt env i) := by
  unfold clickFailsAt; infer_instance

instance (env : ConvEnv) (i : Nat) : Decidable (clickSucceedsAt env i) := by
  unfold clickSucceedsAt; infer_instance

instance (env : ConvEnv) (j : Nat) : Decidable (navFailsAt env j) := by
  unfold navFailsAt; infer_instance

/-- A tick observation that keeps the engine in the awaiting-start phase:
the snapshot never exceeds the minimum length and any banner present is
benign or a throttling message. -/
def obsSafe (cfg : Config) (o : Obs) : Prop :=
  o.snapshot.length ≤ cfg.minResponseLength ∧
  (∀ m, o.errorBanner = some m → m ≠ "" → containsLower "grok" m = false →
    (containsLower "rate limit" m = true ∨ containsLower "too many" m = true))

/-- A small sane configuration used for concrete runs. -/
def cfgA : Config := ⟨1, 2, 100, 50, 5⟩

/-- A configuration with a tight character cap, for truncation runs. -/
def cfgCap : Config := ⟨1, 2, 3, 50, 5⟩

/-- A tick observing a throttling banner. -/
def obsRate : Obs := ⟨some "rate limit reached", true, ""⟩

/-- A tick observing a healthy thread with a fixed six-character reply. -/
def obsStable : Obs := ⟨none, true, "abcdef"⟩

/-- An element whose first probe reports it invisible. -/
def eHidden : UIElem := ⟨Except.ok false, Except.ok true, Except.ok ""⟩

/-- A visible and enabled element. -/
def eShown : UIElem := ⟨Except.ok true, Except.ok true, Except.ok ""⟩

/-- A lifecycle environment already in the empty-conversation state. -/
def envEmptyW : ConvEnv :=
  ⟨3, true, fun _ => none, fun _ => false, fun _ => false, fun _ => "",
   fun _ => false, fun _ => false⟩

/-- A lifecycle environment in which every new-chat click lands on a
thread URL and every fallback navigation leaves the thread populated. -/
def envFailW : ConvEnv :=
  ⟨3, false, fun _ => some eShown, fun _ => true, fun _ => false,
   fun _ => "https://grok.com/chat/abc", fun _ => true, fun _ => false⟩

/-- A reply oracle answering every prompt with a fixed text. -/
def orW : Nat → String → String := fun _ _ => "ok"

/-- A two-prompt input sequence. -/
def pW : List PromptRecord := [⟨1, "a"⟩, ⟨2, "b"⟩]

/-- A persisted results file holding rows for ids 1 and 2. -/
def c7lines : List CsvLine :=
  [CsvLine.header, CsvLine.record ⟨1, "pa", "ra"⟩, CsvLine.record ⟨2, "pb", "rb"⟩]

/-- A three-prompt input whose first two ids are already persisted. -/
def c7prompts : List PromptRecord := [⟨1, "pa"⟩, ⟨2, "pb"⟩, ⟨3, "pc"⟩]

/-!  Helper lemmas about the embedded definitions.  -/

theorem strLength_data (s : String) : s.length = s.data.length := by
  cases s with
  | mk l => rfl

theorem takeStr_length (s : String) (n : Nat) (h : n ≤ s.length) :
    (takeStr s n).length = n := by
  cases s with
  | mk l =>
    have h2 : n ≤ l.length := h
    show (l.take n).length = n
    rw [List.length_take]
    omega

theorem ne_empty_of_len (s : String) (h : 0 < s.length) : s ≠ "" := by
  intro he
  rw [he] at h
  exact absurd h (by decide)

theorem loop_timeout (cfg : Config) (trace : List Obs) (t : Nat) (L : String)
    (sc : Nat) (st : Bool) (ht : cfg.maxWaitTime ≤ t) :
    wait_for_response_loop cfg trace t L sc st = some (timeoutResult cfg L) := by
  cases trace <;> simp only [wait_for_response_loop] <;> rw [if_pos ht]

theorem loop_tick (cfg : Config) (o : Obs) (rest : List Obs) (t : Nat) (L : String)
    (sc : Nat) (st : Bool) (ht : ¬ cfg.maxWaitTime ≤ t) :
    wait_for_response_loop cfg (o :: rest) t L sc st =
      (match tickStep cfg o L sc st with
       | TickOut.done r => some r
       | TickOut.cont dt l s b => wait_for_response_loop cfg rest (t + dt) l s b) := by
  simp only [wait_for_response_loop]
  rw [if_neg ht]

theorem tickStep_none (cfg : Config) (o : Obs) (L : String) (sc : Nat) (st : Bool)
    (h : o.errorBanner = none) : tickStep cfg o L sc st = tickMain cfg o L sc st := by
  simp only [tickStep, h]

theorem tickStep_rate (cfg : Config) (o : Obs) (L : String) (sc : Nat) (st : Bool)
    (m : String) (hm : o.errorBanner = some m) (h1 : m ≠ "")
    (h2 : containsLower "grok" m = false)
    (h3 : containsLower "rate limit" m = true ∨ containsLower "too many" m = true) :
    tickStep cfg o L sc st = TickOut.cont rateLimitSleep L sc st := by
  simp only [tickStep, hm]
  rw [if_pos (by simp [h1, h2])]
  rcases h3 with h3 | h3 <;> rw [if_pos (by simp [h3])]

theorem tickMain_stable (cfg : Config) (o : Obs) (L : String) (sc : Nat) (st : Bool)
    (hm : o.hasMessages = true) (hs : o.snapshot = L) (hne : L ≠ "")
    (hmin : cfg.minResponseLength < L.length) (hmax : L.length < cfg.maxResponseChars) :
    tickMain cfg o L sc st =
      (if cfg.requiredStableChecks ≤ sc + 1 then TickOut.done L
       else TickOut.cont cfg.checkInterval L (sc + 1) true) := by
  simp only [tickMain, hm, hs, Bool.not_true, Bool.false_and, Bool.false_eq_true, if_false]
  rw [if_pos ⟨hne, hmin⟩, if_neg (by omega), if_pos trivial]

theorem tickMain_growth (cfg : Config) (o : Obs) (L : String) (sc : Nat) (st : Bool)
    (hm : o.hasMessages = true) (hneq : o.snapshot ≠ L) (hne : o.snapshot ≠ "")
    (hmin : cfg.minResponseLength < o.snapshot.length)
    (hmax : o.snapshot.length < cfg.maxResponseChars) :
    tickMain cfg o L sc st = TickOut.cont cfg.checkInterval o.snapshot 0 true := by
  simp only [tickMain, hm, Bool.not_true, Bool.false_and, Bool.false_eq_true, if_false]
  rw [if_pos ⟨hne, hmin⟩, if_neg (by omega), if_neg hneq]

theorem tickMain_cap (cfg : Config) (o : Obs) (L : String) (sc : Nat) (st : Bool)
    (hm : o.hasMessages = true) (hmin : cfg.minResponseLength < o.snapshot.length)
    (hcap : cfg.maxResponseChars ≤ o.snapshot.length) :
    tickMain cfg o L sc st = TickOut.done (takeStr o.snapshot cfg.maxResponseChars) := by
  simp only [tickMain, hm, Bool.not_true, Bool.false_and, Bool.false_eq_true, if_false]
  rw [if_pos ⟨ne_empty_of_len _ (by omega), hmin⟩, if_pos hcap]

theorem tickMain_small (cfg : Config) (o : Obs) (L : String) (sc : Nat) (st : Bool)
    (hguard : (!o.hasMessages && st) = false)
    (hlen : o.snapshot.length ≤ cfg.minResponseLength) :
    tickMain cfg o L sc st = TickOut.cont cfg.checkInterval L sc st := by
  simp only [tickMain, hguard, Bool.false_eq_true, if_false]
  rw [if_neg (by intro h; omega)]

theorem stable_run_done (cfg : Config) (T : String) (hne : T ≠ "")
    (hmin : cfg.minResponseLength < T.length) (hmax : T.length < cfg.maxResponseChars) :
    ∀ m sc t, sc + m + 1 = cfg.requiredStableChecks →
    t + m * cfg.checkInterval < cfg.maxWaitTime →
    wait_for_response_loop cfg (List.replicate (m + 1) (Obs.mk none true T)) t T sc true
      = some T := by
  intro m
  induction m with
  | zero =>
    intro sc t hsum htime
    rw [List.replicate_one, loop_tick _ _ _ _ _ _ _ (by omega),
      tickStep_none _ _ _ _ _ rfl, tickMain_stable _ _ _ _ _ rfl rfl hne hmin hmax,
      if_pos (by omega)]
  | succ m ih =>
    intro sc t hsum htime
    have hmul : (m + 1) * cfg.checkInterval
        = m * cfg.checkInterval + cfg.checkInterval := Nat.succ_mul _ _
    rw [hmul] at htime
    rw [List.replicate_succ, loop_tick _ _ _ _ _ _ _ (by omega),
      tickStep_none _ _ _ _ _ rfl, tickMain_stable _ _ _ _ _ rfl rfl hne hmin hmax,
      if_neg (by omega)]
    exact ih (sc + 1) (t + cfg.checkInterval) (by omega) (by omega)

theorem stable_run_none (cfg : Config) (T : String) (hne : T ≠ "")
    (hmin : cfg.minResponseLength < T.length) (hmax : T.length < cfg.maxResponseChars) :
    ∀ m sc t, sc + m < cfg.requiredStableChecks →
    t + m * cfg.checkInterval < cfg.maxWaitTime →
    wait_for_response_loop cfg (List.replicate m (Obs.mk none true T)) t T sc true
      = none := by
  intro m
  induction m with
  | zero =>
    intro sc t hsum htime
    simp only [List.replicate_zero, wait_for_response_loop]
    rw [if_neg (by omega)]
  | succ m ih =>
    intro sc t hsum htime
    have hmul : (m + 1) * cfg.checkInterval
        = m * cfg.checkInterval + cfg.checkInterval := Nat.succ_mul _ _
    rw [hmul] at htime
    rw [List.replicate_succ, loop_tick _ _ _ _ _ _ _ (by omega),
      tickStep_none _ _ _ _ _ rfl, tickMain_stable _ _ _ _ _ rfl rfl hne hmin hmax,
      if_neg (by omega)]
    exact ih (sc + 1) (t + cfg.checkInterval) (by omega) (by omega)

theorem idle_run (cfg : Config) (C : String) :
    ∀ k t sc st, cfg.maxWaitTime ≤ t + k * cfg.checkInterval →
    wait_for_response_loop cfg (List.replicate k (Obs.mk none true "")) t C sc st
      = some (timeoutResult cfg C) := by
  intro k
  induction k with
  | zero =>
    intro t sc st h
    simp only [List.replicate_zero, wait_for_response_loop]
    rw [if_pos (by omega)]
  | succ k ih =>
    intro t sc st h
    by_cases hT : cfg.maxWaitTime ≤ t
    · exact loop_timeout _ _ _ _ _ _ hT
    · have hmul : (k + 1) * cfg.checkInterval
          = k * cfg.checkInterval + cfg.checkInterval := Nat.succ_mul _ _
      rw [hmul] at h
      rw [List.replicate_succ, loop_tick _ _ _ _ _ _ _ hT,
        tickStep_none _ _ _ _ _ rfl,
        tickMain_small _ _ _ _ _ (by simp) (by exact Nat.zero_le _)]
      exact ih (t + cfg.checkInterval) sc st (by omega)

theorem tickStep_safe (cfg : Config) (o : Obs) (L : String) (sc : Nat)
    (hs : obsSafe cfg o) :
    tickStep cfg o L sc false = TickOut.cont cfg.checkInterval L sc false ∨
    tickStep cfg o L sc false = TickOut.cont rateLimitSleep L sc false := by
  rcases hs with ⟨hlen, hban⟩
  cases ho : o.errorBanner with
  | none =>
    left
    rw [tickStep_none _ _ _ _ _ ho]
    exact tickMain_small _ _ _ _ _ (by simp) hlen
  | some m =>
    by_cases hm1 : m = ""
    · left
      simp only [tickStep, ho, hm1]
      rw [if_neg (by simp)]
      exact tickMain_small _ _ _ _ _ (by simp) hlen
    · by_cases hm2 : containsLower "grok" m = true
      · left
        simp only [tickStep, ho]
        rw [if_neg (by simp [hm2])]
        exact tickMain_small _ _ _ _ _ (by simp) hlen
      · right
        exact tickStep_rate _ _ _ _ _ _ ho hm1 (by simpa using hm2)
          (hban m ho hm1 (by simpa using hm2))

theorem timeoutResult_empty (cfg : Config) :
    timeoutResult cfg "" = "Error: No response received" := by
  unfold timeoutResult
  rw [if_neg (by intro h; exact h.1 rfl)]

theorem safe_run (cfg : Config) :
    ∀ (trace : List Obs) t sc, (∀ o ∈ trace, obsSafe cfg o) →
    ∀ r, wait_for_response_loop cfg trace t "" sc false = some r →
    r = "Error: No response received" := by
  intro trace
  induction trace with
  | nil =>
    intro t sc _ r hr
    simp only [wait_for_response_loop] at hr
    by_cases hT : cfg.maxWaitTime ≤ t
    · rw [if_pos hT] at hr
      rw [timeoutResult_empty] at hr
      exact (Option.some_inj.mp hr).symm
    · rw [if_neg hT] at hr
      exact absurd hr (by simp)
  | cons o rest ih =>
    intro t sc hsafe r hr
    by_cases hT : cfg.maxWaitTime ≤ t
    · rw [loop_timeout _ _ _ _ _ _ hT, timeoutResult_empty] at hr
      exact (Option.some_inj.mp hr).symm
    · rw [loop_tick _ _ _ _ _ _ _ hT] at hr
      rcases tickStep_safe cfg o "" sc (hsafe o (by simp)) with hstep | hstep <;>
        rw [hstep] at hr <;>
        exact ih _ _ (fun o2 h2 => hsafe o2 (by simp [h2])) r hr

/-- Claim C1: on a polling tick whose qualifying snapshot (longer than the
minimum, below the cap) is unchanged from the previous tick, the engine
increments the stability counter and keeps polling; a changed qualifying
snapshot resets the counter to zero and updates the last-seen snapshot;
and starting from a just-seen snapshot, the engine returns that text with
success exactly on the tick at which the counter reaches the required
stable-check threshold, and is still polling on every earlier tick. -/
theorem wait_for_response_stabilizes_exactly_at_threshold :
    (∀ cfg o rest t L sc st, t < cfg.maxWaitTime → o.errorBanner = none →
      o.hasMessages = true → o.snapshot = L → L ≠ "" →
      cfg.minResponseLength < L.length → L.length < cfg.maxResponseChars →
      sc + 1 < cfg.requiredStableChecks →
      wait_for_response_loop cfg (o :: rest) t L sc st =
        wait_for_response_loop cfg rest (t + cfg.checkInterval) L (sc + 1) true)
    ∧ (∀ cfg o rest t L sc st, t < cfg.maxWaitTime → o.errorBanner = none →
      o.hasMessages = true → o.snapshot ≠ L → o.snapshot ≠ "" →
      cfg.minResponseLength < o.snapshot.length →
      o.snapshot.length < cfg.maxResponseChars →
      wait_for_response_loop cfg (o :: rest) t L sc st =
        wait_for_response_loop cfg rest (t + cfg.checkInterval) o.snapshot 0 true)
    ∧ (∀ cfg T t, 0 < cfg.requiredStableChecks → T ≠ "" →
      cfg.minResponseLength < T.length → T.length < cfg.maxResponseChars →
      t + (cfg.requiredStableChecks - 1) * cfg.checkInterval < cfg.maxWaitTime →
      wait_for_response_loop cfg
        (List.replicate cfg.requiredStableChecks (Obs.mk none true T)) t T 0 true
        = some T)
    ∧ (∀ cfg T t k, k < cfg.requiredStableChecks → T ≠ "" →
      cfg.minResponseLength < T.length → T.length < cfg.maxResponseChars →
      t + k * cfg.checkInterval < cfg.maxWaitTime →
      wait_for_response_loop cfg (List.replicate k (Obs.mk none true T)) t T 0 true
        = none) := by
  refine ⟨?_, ?_, ?_, ?_⟩
  · intro cfg o rest t L sc st ht herr hm hs hne hmin hmax hsc
    rw [loop_tick _ _ _ _ _ _ _ (by omega), tickStep_none _ _ _ _ _ herr,
      tickMain_stable _ _ _ _ _ hm hs hne hmin hmax, if_neg (by omega)]
  · intro cfg o rest t L sc st ht herr hm hneq hne hmin hmax
    rw [loop_tick _ _ _ _ _ _ _ (by omega), tickStep_none _ _ _ _ _ herr,
      tickMain_growth _ _ _ _ _ hm hneq hne hmin hmax]
  · intro cfg T t h0 hne hmin hmax htime
    obtain ⟨m, hm⟩ : ∃ m, cfg.requiredStableChecks = m + 1 :=
      ⟨cfg.requiredStableChecks - 1, by omega⟩
    rw [hm]
    exact stable_run_done cfg T hne hmin hmax m 0 t (by omega)
      (by rw [hm] at htime; simpa using htime)
  · intro cfg T t k hk hne hmin hmax htime
    exact stable_run_none cfg T hne hmin hmax k 0 t (by omega) htime

/-- Witness for C1: with a required-stable-checks threshold of two, a
six-character reply held constant for two ticks is returned exactly then,
and a single stable tick leaves the engine still polling. -/
theorem wait_for_response_stabilizes_exactly_at_threshold_witness :
    wait_for_response_loop cfgA (List.replicate 2 (Obs.mk none true "abcdef")) 0
      "abcdef" 0 true = some "abcdef"
    ∧ wait_for_response_loop cfgA (List.replicate 1 (Obs.mk none true "abcdef")) 0
      "abcdef" 0 true = none := by
  constructor
  · exact wait_for_response_stabilizes_exactly_at_threshold.2.2.1 cfgA "abcdef" 0
      (by decide) (by decide) (by decide) (by decide) (by decide)
  · exact wait_for_response_stabilizes_exactly_at_threshold.2.2.2 cfgA "abcdef" 0 1
      (by decide) (by decide) (by decide) (by decide) (by decide)

/-- Claim C3: a tick whose snapshot has reached the character cap (in a
configuration whose cap exceeds the minimum length) terminates at once
with success, returning the snapshot cut to exactly the cap. -/
theorem wait_for_response_truncates_at_cap (cfg : Config) (o : Obs) (rest : List Obs)
    (t : Nat) (L : String) (sc : Nat) (st : Bool)
    (ht : t < cfg.maxWaitTime) (herr : o.errorBanner = none)
    (hm : o.hasMessages = true) (hcfg : cfg.minResponseLength < cfg.maxResponseChars)
    (hcap : cfg.maxResponseChars ≤ o.snapshot.length) :
    wait_for_response_loop cfg (o :: rest) t L sc st
      = some (takeStr o.snapshot cfg.maxResponseChars)
    ∧ (takeStr o.snapshot cfg.maxResponseChars).length = cfg.maxResponseChars := by
  constructor
  · rw [loop_tick _ _ _ _ _ _ _ (by omega), tickStep_none _ _ _ _ _ herr,
      tickMain_cap _ _ _ _ _ hm (by omega) hcap]
  · exact takeStr_length _ _ hcap

/-- Witness for C3: a six-character snapshot under a three-character cap
returns exactly the first three characters. -/
theorem wait_for_response_truncates_at_cap_witness :
    wait_for_response_loop cfgCap [obsStable] 0 "" 0 false
      = some (takeStr "abcdef" 3)
    ∧ (takeStr "abcdef" 3).length = 3 := by
  exact wait_for_response_truncates_at_cap cfgCap obsStable [] 0 "" 0 false
    (by decide) (by decide) (by decide) (by decide) (by decide)

/-- Counterexample for C4: with a 50-unit wait budget, a trace of four
rate-limited ticks terminates with the no-response timeout error after
only two cooldowns, because the 30-unit cooldown sleeps are counted
against the budget; under the claim reading, in which cooldown time is
not counted, the same trace would still be polling. -/
theorem rate_limit_cooldown_counted_counterexample :
    wait_for_response cfgA (List.replicate 4 obsRate)
      = some "Error: No response received"
    ∧ wait_loop_uncounted cfgA (List.replicate 4 obsRate) 0 "" 0 false = none := by
  exact ⟨by decide, by decide⟩

/-- Claim C4 as amended: a tick observing a throttling banner sleeps the
fixed cooldown and resumes polling rather than terminating, but the
cooldown advances the elapsed clock and is counted against the
max-wait-time budget — so cooldowns alone can exhaust the budget and end
the wait. -/
theorem rate_limit_cooldown_resumes_and_is_counted :
    (∀ cfg o rest t L sc st m, t < cfg.maxWaitTime → o.errorBanner = some m →
      m ≠ "" → containsLower "grok" m = false →
      (containsLower "rate limit" m = true ∨ containsLower "too many" m = true) →
      wait_for_response_loop cfg (o :: rest) t L sc st =
        wait_for_response_loop cfg rest (t + rateLimitSleep) L sc st)
    ∧ (∀ cfg o t L sc st m, t < cfg.maxWaitTime → cfg.maxWaitTime ≤ t + rateLimitSleep →
      o.errorBanner = some m → m ≠ "" → containsLower "grok" m = false →
      (containsLower "rate limit" m = true ∨ containsLower "too many" m = true) →
      wait_for_response_loop cfg [o] t L sc st = some (timeoutResult cfg L)) := by
  constructor
  · intro cfg o rest t L sc st m ht hb h1 h2 h3
    rw [loop_tick _ _ _ _ _ _ _ (by omega), tickStep_rate _ _ _ _ _ _ hb h1 h2 h3]
  · intro cfg o t L sc st m ht hT hb h1 h2 h3
    rw [loop_tick _ _ _ _ _ _ _ (by omega), tickStep_rate _ _ _ _ _ _ hb h1 h2 h3]
    exact loop_timeout _ _ _ _ _ _ hT

/-- Witness for C4 as amended: a concrete throttling tick advances the
clock by the 30-unit cooldown and keeps polling. -/
theorem rate_limit_cooldown_resumes_and_is_counted_witness :
    wait_for_response_loop cfgA [obsRate, obsRate] 0 "" 0 false =
      wait_for_response_loop cfgA [obsRate] (0 + rateLimitSleep) "" 0 false := by
  exact rate_limit_cooldown_resumes_and_is_counted.1 cfgA obsRate [obsRate] 0 "" 0
    false "rate limit reached" (by decide) (by decide) (by decide) (by decide)
    (Or.inl (by decide))

/-- Claim C5: when the wait budget is exhausted the engine returns the
timeout fallback: the last qualifying snapshot (cut to the cap when
longer) when one was seen, and the typed no-response error otherwise;
a run that never observes a snapshot above the minimum length can only
terminate with the typed no-response error, never an empty success; and
a qualifying snapshot followed by idle ticks until the budget runs out is
returned as a best-effort success. -/
theorem wait_for_response_timeout_fallback :
    (∀ cfg trace t L sc st, cfg.maxWaitTime ≤ t →
      wait_for_response_loop cfg trace t L sc st = some (timeoutResult cfg L))
    ∧ (∀ cfg L, L ≠ "" → cfg.minResponseLength < L.length →
      timeoutResult cfg L =
        if cfg.maxResponseChars < L.length then takeStr L cfg.maxResponseChars else L)
    ∧ (∀ cfg L, L = "" ∨ L.length ≤ cfg.minResponseLength →
      timeoutResult cfg L = "Error: No response received")
    ∧ (∀ cfg trace t sc, (∀ o ∈ trace, obsSafe cfg o) →
      ∀ r, wait_for_response_loop cfg trace t "" sc false = some r →
      r = "Error: No response received")
    ∧ (∀ cfg C t k, C ≠ "" → cfg.minResponseLength < C.length →
      C.length < cfg.maxResponseChars → t < cfg.maxWaitTime →
      cfg.maxWaitTime ≤ t + cfg.checkInterval + k * cfg.checkInterval →
      wait_for_response_loop cfg
        (Obs.mk none true C :: List.replicate k (Obs.mk none true "")) t "" 0 false
        = some C) := by
  refine ⟨?_, ?_, ?_, ?_, ?_⟩
  · intro cfg trace t L sc st ht
    exact loop_timeout _ _ _ _ _ _ ht
  · intro cfg L hne hmin
    unfold timeoutResult
    rw [if_pos ⟨hne, hmin⟩]
  · intro cfg L h
    rcases h with h | h
    · rw [h]
      exact timeoutResult_empty cfg
    · unfold timeoutResult
      rw [if_neg (by intro hc; omega)]
  · intro cfg trace t sc hsafe r hr
    exact safe_run cfg trace t sc hsafe r hr
  · intro cfg C t k hne hmin hmax ht htime
    rw [loop_tick _ _ _ _ _ _ _ (by omega), tickStep_none _ _ _ _ _ rfl,
      tickMain_growth _ _ _ _ _ rfl hne hne hmin hmax]
    show wait_for_response_loop cfg (List.replicate k (Obs.mk none true ""))
      (t + cfg.checkInterval) C 0 true = some C
    rw [idle_run cfg C k (t + cfg.checkInterval) 0 true (by omega)]
    unfold timeoutResult
    rw [if_pos ⟨hne, hmin⟩, if_neg (by omega)]

/-- Witness for C5: an exhausted budget with no qualifying snapshot yields
the typed no-response error, and a six-character snapshot followed by
idle ticks is returned as a best-effort success. -/
theorem wait_for_response_timeout_fallback_witness :
    wait_for_response_loop cfgA [] 50 "" 0 false
      = some "Error: No response received"
    ∧ wait_for_response_loop cfgA
        (Obs.mk none true "abcdef" :: List.replicate 9 (Obs.mk none true "")) 0 "" 0
        false = some "abcdef" := by
  constructor
  · have h := wait_for_response_timeout_fallback.1 cfgA [] 50 "" 0 false (by decide)
    rw [wait_for_response_timeout_fallback.2.2.1 cfgA "" (Or.inl rfl)] at h
    exact h
  · exact wait_for_response_timeout_fallback.2.2.2.2 cfgA "abcdef" 0 9 (by decide)
      (by decide) (by decide) (by decide) (by decide)

theorem find_element_cons (a : UIElem) (l : List UIElem) :
    find_element (Except.ok (a :: l)) =
      if a.vis = Except.ok true ∧ a.enab = Except.ok true then some a else none := by
  rcases a with ⟨av, ae, at2⟩
  rcases av with e1 | b1
  · simp [find_element]
  · cases b1
    · simp [find_element]
    · rcases ae with e2 | b2
      · simp [find_element]
      · cases b2 <;> simp [find_element]

/-- Counterexample for C2: a selector whose first match in document order
is invisible while its second match is visible and enabled yields
NotFound from the resolver, although a match satisfying every check
exists — the specification's iterate-all-matches algorithm would return
the second match. -/
theorem find_element_misses_later_match_counterexample :
    find_element (Except.ok [eHidden, eShown]) = none
    ∧ resolveSpec [[eHidden, eShown]] true = some eShown
    ∧ passesChecks true eShown = true
    ∧ find_element_for_role (fun _ => Except.ok [eHidden, eShown]) Role.newChatButton
        = none := by
  exact ⟨rfl, rfl, rfl, rfl⟩

/-- Claim C2 as amended: for every role the resolver queries the role's
single selector and examines only the first match in document order,
returning it exactly when it is visible and enabled (the enabled check is
always applied); with any other first match — or no match — it returns
NotFound, regardless of later matches. -/
theorem find_element_first_match_only :
    (∀ (q : List UIElem) (e : UIElem),
      find_element (Except.ok q) = some e ↔
        q.head? = some e ∧ e.vis = Except.ok true ∧ e.enab = Except.ok true)
    ∧ (∀ (e : UIElem) (r1 r2 : List UIElem),
      find_element (Except.ok (e :: r1)) = find_element (Except.ok (e :: r2)))
    ∧ (∀ (page : PageModel) (r : Role),
      find_element_for_role page r = find_element (page (selectorFor r))) := by
  refine ⟨?_, ?_, ?_⟩
  · intro q e
    cases q with
    | nil => simp [find_element]
    | cons a l =>
      rw [find_element_cons]
      by_cases h : a.vis = Except.ok true ∧ a.enab = Except.ok true
      · rw [if_pos h]
        constructor
        · intro he
          cases Option.some_inj.mp he
          exact ⟨rfl, h.1, h.2⟩
        · intro ⟨hh, _, _⟩
          simp only [List.head?] at hh
          exact hh
      · rw [if_neg h]
        constructor
        · intro he
          exact absurd he (by simp)
        · intro ⟨hh, hv, he2⟩
          simp only [List.head?, Option.some_inj] at hh
          exact absurd ⟨hh ▸ hv, hh ▸ he2⟩ h
  · intro e r1 r2
    rw [find_element_cons, find_element_cons]
  · intro page r
    rfl

/-- Claim C10: the page-probing helpers are total at their interface — a
driver exception at any point inside find_element, detect_ui_errors,
has_messages or get_latest_response is caught and mapped to none, none,
false, or the empty string respectively, and never escapes. -/
theorem probe_helpers_never_raise :
    (∀ err, find_element (Except.error err) = none)
    ∧ (∀ err, detect_ui_errors (Except.error err) = none)
    ∧ (∀ err, has_messages (Except.error err) = false)
    ∧ (∀ err, get_latest_response (Except.error err) = "")
    ∧ (∀ err enb tx rest,
      find_element (Except.ok (UIElem.mk (Except.error err) enb tx :: rest)) = none)
    ∧ (∀ err tx rest,
      find_element (Except.ok (UIElem.mk (Except.ok true) (Except.error err) tx :: rest))
        = none)
    ∧ (∀ err enb tx rest,
      detect_ui_errors (Except.ok (UIElem.mk (Except.error err) enb tx :: rest)) = none)
    ∧ (∀ err enb rest,
      detect_ui_errors
        (Except.ok (UIElem.mk (Except.ok true) enb (Except.error err) :: rest)) = none)
    ∧ (∀ n, has_messages (Except.ok n) = decide (0 < n))
    ∧ (∀ pre vis enb err,
      get_latest_response (Except.ok (pre ++ [UIElem.mk vis enb (Except.error err)]))
        = "") := by
  refine ⟨fun _ => rfl, fun _ => rfl, fun _ => rfl, fun _ => rfl,
    fun _ _ _ _ => rfl, fun _ _ _ => rfl, fun _ _ _ _ => rfl, fun _ _ _ => rfl,
    fun _ => rfl, ?_⟩
  intro pre vis enb err
  simp [get_latest_response, List.getLast?_concat]

theorem run_loop_append (oracle : Nat → String → String) :
    ∀ (ps : List PromptRecord) (L : List CsvLine),
    run_automation_loop oracle ps (some L)
      = some (L ++ ps.map (fun p => CsvLine.record (process_prompt oracle p))) := by
  intro ps
  induction ps with
  | nil => intro L; simp [run_automation_loop]
  | cons p rest ih =>
    intro L
    simp only [run_automation_loop, appendResult]
    rw [ih]
    simp

/-- Claim C6: a fresh-sink run persists exactly one record per processed
prompt, in input order, writing the header on the first write only, and
each record is persisted before the next prompt begins — so a run
interrupted after k prompts leaves a file with the header and exactly the
first k records. -/
theorem run_persists_each_record_in_order (oracle : Nat → String → String)
    (prompts : List PromptRecord) (k : Nat) (hk : 0 < k) (hkle : k ≤ prompts.length) :
    run_automation_loop oracle (prompts.take k) none
      = some (CsvLine.header ::
          (prompts.take k).map (fun p => CsvLine.record (process_prompt oracle p)))
    ∧ ((prompts.take k).map (fun p => CsvLine.record (process_prompt oracle p))).length
        = k := by
  constructor
  · cases prompts with
    | nil => simp at hkle; omega
    | cons p ps =>
      cases k with
      | zero => omega
      | succ k2 =>
        rw [List.take_succ_cons]
        simp only [run_automation_loop, appendResult]
        rw [run_loop_append]
        simp
  · rw [List.length_map, List.length_take]
    omega

/-- Witness for C6: interrupting a two-prompt run after the first prompt
leaves the header and exactly one record. -/
theorem run_persists_each_record_in_order_witness :
    run_automation_loop orW (pW.take 1) none
      = some (CsvLine.header ::
          (pW.take 1).map (fun p => CsvLine.record (process_prompt orW p)))
    ∧ ((pW.take 1).map (fun p => CsvLine.record (process_prompt orW p))).length = 1 := by
  exact run_persists_each_record_in_order orW pW 1 (by decide) (by decide)

/-- Claim C7: a resume run computes the persisted id set once, excludes
exactly the prompts whose id is in it, runs the persist loop over the
remaining prompts only — no pending prompt carries a persisted id — and in
particular with ids 1 and 2 persisted and input ids 1, 2, 3 it appends
exactly the one record for id 3. -/
theorem resume_skips_persisted_ids (oracle : Nat → String → String)
    (prompts : List PromptRecord) (file : Option (List CsvLine)) :
    run_automation oracle prompts file true
      = run_automation_loop oracle
          (prompts.filter (fun p => !((load_existing_results file).contains p.pid))) file
    ∧ (∀ p ∈ prompts.filter
          (fun p => !((load_existing_results file).contains p.pid)),
        (load_existing_results file).contains p.pid = false)
    ∧ run_automation oracle c7prompts (some c7lines) true
        = some (c7lines ++ [CsvLine.record ⟨3, "pc", oracle 3 "pc"⟩]) := by
  refine ⟨?_, ?_, ?_⟩
  · show run_automation_loop oracle
        (if (load_existing_results file).isEmpty = true then prompts
         else prompts.filter (fun p => !((load_existing_results file).contains p.pid)))
        file
      = run_automation_loop oracle
          (prompts.filter (fun p => !((load_existing_results file).contains p.pid))) file
    by_cases h : (load_existing_results file).isEmpty = true
    · rw [if_pos h]
      have hnil : load_existing_results file = [] := List.isEmpty_iff.mp h
      rw [hnil]
      simp
    · rw [if_neg h]
  · intro p hp
    rw [List.mem_filter] at hp
    simpa using hp.2
  · show run_automation_loop oracle [PromptRecord.mk 3 "pc"] (some c7lines) = _
    rw [run_loop_append]
    rfl

/-- Witness for C7: with ids 1 and 2 persisted and inputs 1, 2, 3, the
resume run appends exactly one record, for id 3, whose id is not in the
persisted set. -/
theorem resume_skips_persisted_ids_witness :
    run_automation orW c7prompts (some c7lines) true
      = some (c7lines ++ [CsvLine.record ⟨3, "pc", orW 3 "pc"⟩])
    ∧ (load_existing_results (some c7lines)).contains 3 = false := by
  constructor
  · exact (resume_skips_persisted_ids orW c7prompts (some c7lines)).2.2
  · exact (resume_skips_persisted_ids orW c7prompts (some c7lines)).2.1
      ⟨3, "pc"⟩ (by decide)

/-- Counterexample for C8: a run in which the browser connection cannot be
established (or the prompts source fails to load) still exits with status
zero — the entry point never converts the failure into a non-zero exit —
while a config.json load failure, which the claim does not list, exits
non-zero. -/
theorem exit_code_counterexample :
    run_automation_ok ⟨true, false, true⟩ = false
    ∧ exitCode ⟨true, false, true⟩ = 0
    ∧ run_automation_ok ⟨true, true, false⟩ = false
    ∧ exitCode ⟨true, true, false⟩ = 0
    ∧ exitCode ⟨false, true, true⟩ = 1 := by
  exact ⟨rfl, rfl, rfl, rfl, rfl⟩

/-- Claim C8 as amended: the process exits non-zero exactly when loading
config.json fails during automator construction; connection failure and
prompts-load failure only make run_automation report false, and the exit
status is zero in every run whose configuration loaded, including runs
whose prompts recorded error text. -/
theorem exit_code_amended (env : MainEnv) :
    (exitCode env ≠ 0 ↔ env.configOk = false)
    ∧ (env.configOk = true → mainProcess env
        = Except.ok (env.connectOk && env.promptsOk)) := by
  cases env with
  | mk c n p => cases c <;> simp [exitCode, mainProcess, automatorInit, run_automation_ok]

/-- Witness for C8 as amended: with the configuration loaded and the
connection failing, main completes normally carrying a false outcome. -/
theorem exit_code_amended_witness :
    mainProcess ⟨true, false, true⟩ = Except.ok false := by
  have h := (exit_code_amended ⟨true, false, true⟩).2 rfl
  simpa using h

theorem nav_no_reload (env : ConvEnv) :
    ∀ fuel j acts, PageAction.reloadPage ∉ acts →
    PageAction.reloadPage ∉ (sncNavLoop env fuel j acts).2 := by
  intro fuel
  induction fuel with
  | zero => intro j acts h; simpa [sncNavLoop] using h
  | succ fuel ih =>
    intro j acts h
    have h2 : PageAction.reloadPage ∉ acts ++ [PageAction.navigateRoot] := by
      simp [List.mem_append, h]
    simp only [sncNavLoop]
    by_cases h1 : env.navOk j = true
    · rw [if_pos h1]
      by_cases hE : env.emptyAfterNav j = true
      · rw [if_pos hE]; exact h2
      · rw [if_neg hE]; exact ih (j + 1) _ h2
    · rw [if_neg h1]; exact ih (j + 1) _ h2

theorem button_no_reload (env : ConvEnv) :
    ∀ fuel i acts, PageAction.reloadPage ∉ acts →
    PageAction.reloadPage ∉ (sncButtonLoop env fuel i acts).2 := by
  intro fuel
  induction fuel with
  | zero => intro i acts h; exact nav_no_reload env 2 0 acts h
  | succ fuel ih =>
    intro i acts h
    have h2 : PageAction.reloadPage ∉ acts ++ [PageAction.clickNewChat] := by
      simp [List.mem_append, h]
    simp only [sncButtonLoop]
    by_cases hS : (env.newChatFind i).isSome = true
    · rw [if_pos hS]
      by_cases hC : env.clickOk i = true
      · rw [if_pos hC]
        by_cases hE : env.emptyAfterClick i = true
        · rw [if_pos hE]; exact h2
        · rw [if_neg hE]
          by_cases hU : env.urlAfterClick i = "https://grok.com" ∨
              env.urlAfterClick i = "https://grok.com/"
          · rw [if_pos hU]; exact h2
          · rw [if_neg hU]; exact ih (i + 1) _ h2
      · rw [if_neg hC]; exact ih (i + 1) _ h2
    · rw [if_neg hS]; exact ih (i + 1) _ h

theorem nav_all_fail (env : ConvEnv) :
    ∀ fuel j acts, (∀ k, j ≤ k → k < j + fuel → navFailsAt env k) →
    (sncNavLoop env fuel j acts).1 = false := by
  intro fuel
  induction fuel with
  | zero => intro j acts _; simp [sncNavLoop]
  | succ fuel ih =>
    intro j acts h
    simp only [sncNavLoop]
    rcases h j (Nat.le_refl j) (by omega) with hN | hE
    · rw [if_neg (by simp [hN])]
      exact ih (j + 1) _ (fun k h1 h2 => h k (by omega) (by omega))
    · by_cases h1 : env.navOk j = true
      · rw [if_pos h1, if_neg (by simp [hE])]
        exact ih (j + 1) _ (fun k ha hb => h k (by omega) (by omega))
      · rw [if_neg h1]
        exact ih (j + 1) _ (fun k ha hb => h k (by omega) (by omega))

theorem button_all_fail (env : ConvEnv) :
    ∀ fuel i acts, (∀ k, i ≤ k → k < i + fuel → clickFailsAt env k) →
    ∃ acts2, sncButtonLoop env fuel i acts = sncNavLoop env 2 0 acts2 := by
  intro fuel
  induction fuel with
  | zero => intro i acts _; exact ⟨acts, rfl⟩
  | succ fuel ih =>
    intro i acts h
    have hnext : ∀ (a2 : List PageAction),
        ∃ acts2, sncButtonLoop env fuel (i + 1) a2 = sncNavLoop env 2 0 acts2 :=
      fun a2 => ih (i + 1) a2 (fun k ha hb => h k (by omega) (by omega))
    simp only [sncButtonLoop]
    rcases h i (Nat.le_refl i) (by omega) with hN | hC | ⟨hC, hE, hU1, hU2⟩
    · rw [if_neg (by simp [Option.isNone_iff_eq_none.mp hN])]
      exact hnext acts
    · by_cases hS : (env.newChatFind i).isSome = true
      · rw [if_pos hS, if_neg (by simp [hC])]
        exact hnext _
      · rw [if_neg hS]
        exact hnext acts
    · by_cases hS : (env.newChatFind i).isSome = true
      · rw [if_pos hS, if_pos hC, if_neg (by simp [hE]),
          if_neg (fun hor => hor.elim hU1 hU2)]
        exact hnext _
      · rw [if_neg hS]
        exact hnext acts

theorem button_success (env : ConvEnv) :
    ∀ fuel i d acts, d < fuel → clickSucceedsAt env (i + d) →
    (∀ e, e < d → clickFailsAt env (i + e)) →
    (sncButtonLoop env fuel i acts).1 = true := by
  intro fuel
  induction fuel with
  | zero => intro i d acts hd; exact absurd hd (Nat.not_lt_zero d)
  | succ fuel ih =>
    intro i d acts hd hsucc hfail
    simp only [sncButtonLoop]
    cases d with
    | zero =>
      rcases hsucc with ⟨hS, hC, hor⟩
      rw [Nat.add_zero] at hS hC hor
      rw [if_pos hS, if_pos hC]
      rcases hor with hE | hU
      · rw [if_pos hE]
      · by_cases hE : env.emptyAfterClick i = true
        · rw [if_pos hE]
        · rw [if_neg hE, if_pos hU]
    | succ d2 =>
      have hsucc2 : clickSucceedsAt env (i + 1 + d2) := by
        rw [show i + 1 + d2 = i + (d2 + 1) from by omega]
        exact hsucc
      have hfail2 : ∀ e, e < d2 → clickFailsAt env (i + 1 + e) := by
        intro e he
        rw [show i + 1 + e = i + (e + 1) from by omega]
        exact hfail (e + 1) (by omega)
      have hstep := hfail 0 (by omega)
      rw [Nat.add_zero] at hstep
      rcases hstep with hN | hC | ⟨hC, hE, hU1, hU2⟩
      · rw [if_neg (by simp [Option.isNone_iff_eq_none.mp hN])]
        exact ih (i + 1) d2 _ (by omega) hsucc2 hfail2
      · by_cases hS : (env.newChatFind i).isSome = true
        · rw [if_pos hS, if_neg (by simp [hC])]
          exact ih (i + 1) d2 _ (by omega) hsucc2 hfail2
        · rw [if_neg hS]
          exact ih (i + 1) d2 _ (by omega) hsucc2 hfail2
      · by_cases hS : (env.newChatFind i).isSome = true
        · rw [if_pos hS, if_pos hC, if_neg (by simp [hE]),
            if_neg (fun hor => hor.elim hU1 hU2)]
          exact ih (i + 1) d2 _ (by omega) hsucc2 hfail2
        · rw [if_neg hS]
          exact ih (i + 1) d2 _ (by omega) hsucc2 hfail2

/-- Counterexample for C9: in an environment where every new-chat click
lands on a thread URL and both fallback navigations leave the thread
populated, the controller returns false after three click attempts and
two navigation attempts, without ever attempting a page reload — the
claim's reload fallback does not exist in the controller. -/
theorem ensure_fresh_no_reload_counterexample :
    start_new_conversation envFailW
      = (false, [PageAction.clickNewChat, PageAction.clickNewChat,
          PageAction.clickNewChat, PageAction.navigateRoot, PageAction.navigateRoot])
    ∧ PageAction.reloadPage ∉ (start_new_conversation envFailW).2 := by
  exact ⟨by decide, by decide⟩

/-- Claim C9 as amended: the controller is a no-op success when the state
is already empty; otherwise it retries the new-chat resolve-and-click up
to the retry budget, succeeding after any click that empties the state or
lands on the site root; when every click attempt fails it falls back to
at most two direct navigations to the site root, succeeding when one
leaves the state empty; it never attempts a page reload, and it returns
false (non-fatal) only when all of these fail. -/
theorem ensure_fresh_lifecycle :
    (∀ env : ConvEnv, env.initialEmpty = true → start_new_conversation env = (true, []))
    ∧ (∀ env : ConvEnv, PageAction.reloadPage ∉ (start_new_conversation env).2)
    ∧ (∀ (env : ConvEnv) (i : Nat), env.initialEmpty = false → i < env.maxRetries →
      clickSucceedsAt env i → (∀ e, e < i → clickFailsAt env e) →
      (start_new_conversation env).1 = true)
    ∧ (∀ env : ConvEnv, env.initialEmpty = false →
      (∀ i, i < env.maxRetries → clickFailsAt env i) →
      env.navOk 0 = true → env.emptyAfterNav 0 = true →
      (start_new_conversation env).1 = true
      ∧ PageAction.navigateRoot ∈ (start_new_conversation env).2)
    ∧ (∀ env : ConvEnv, env.initialEmpty = false →
      (∀ i, i < env.maxRetries → clickFailsAt env i) →
      (∀ j, j < 2 → navFailsAt env j) →
      (start_new_conversation env).1 = false) := by
  refine ⟨?_, ?_, ?_, ?_, ?_⟩
  · intro env h
    simp only [start_new_conversation]
    rw [if_pos h]
  · intro env
    simp only [start_new_conversation]
    by_cases h : env.initialEmpty = true
    · rw [if_pos h]; simp
    · rw [if_neg h]
      exact button_no_reload env env.maxRetries 0 [] (by simp)
  · intro env i hIE hi hsucc hfail
    simp only [start_new_conversation]
    rw [if_neg (by simp [hIE])]
    exact button_success env env.maxRetries 0 i [] hi (by simpa using hsucc)
      (fun e he => by simpa using hfail e he)
  · intro env hIE hfail hnav hempty
    obtain ⟨acts2, heq⟩ :=
      button_all_fail env env.maxRetries 0 [] (fun k h1 h2 => hfail k (by omega))
    have hrun : start_new_conversation env = sncNavLoop env 2 0 acts2 := by
      simp only [start_new_conversation]
      rw [if_neg (by simp [hIE])]
      exact heq
    rw [hrun]
    simp only [sncNavLoop]
    rw [if_pos hnav, if_pos hempty]
    exact ⟨rfl, by simp⟩
  · intro env hIE hfail hnavfail
    obtain ⟨acts2, heq⟩ :=
      button_all_fail env env.maxRetries 0 [] (fun k h1 h2 => hfail k (by omega))
    have hrun : start_new_conversation env = sncNavLoop env 2 0 acts2 := by
      simp only [start_new_conversation]
      rw [if_neg (by simp [hIE])]
      exact heq
    rw [hrun]
    exact nav_all_fail env 2 0 acts2 (fun k h1 h2 => hnavfail k (by omega))

/-- Witness for C9 as amended: an already-empty state is a no-op success,
and an environment failing every click and navigation returns false. -/
theorem ensure_fresh_lifecycle_witness :
    start_new_conversation envEmptyW = (true, [])
    ∧ (start_new_conversation envFailW).1 = false := by
  constructor
  · exact ensure_fresh_lifecycle.1 envEmptyW rfl
  · exact ensure_fresh_lifecycle.2.2.2.2 envFailW rfl (by decide) (by decide)

end GrokEval
